import Mathlib

/-!
Verification of the gpx-converter core (src/gpx_converter/base.py) against its
natural-language specification.

Shallow embedding conventions:
* A pandas / python scalar cell is an `Option Value`: `none` stands for both
  python `None` and float NaN (the code's `_get` helper maps both to `None`,
  and `gpxpy` never produces NaN attribute values on the document side).
* Numbers are exact rationals; timestamps are abstracted as rationals.
* A pandas DataFrame and the python dict built by `_gpx_to_dict` are both
  column-oriented association lists `List (String × List (Option Value))`.
* File I/O, XML serialisation and the scipy spline evaluator are external
  collaborators; the embedding stops at the data handed to them.
-/

/-- A python scalar value as it occurs in table cells and point attributes. -/
inductive Value where
  | str : String → Value
  | num : ℚ → Value
  | bool : Bool → Value
  | time : ℚ → Value
deriving DecidableEq, Repr

/-- Python truthiness of a cell, as used by `any(gpx_data[column])`:
`None`, the empty string, numeric zero and `False` are falsy;
datetimes are always truthy. -/
def truthyCell : Option Value → Bool
  | none => false
  | some (Value.str s) => !(s = "")
  | some (Value.num q) => !(q = 0)
  | some (Value.bool b) => b
  | some (Value.time _) => true

/-- Embedding of python `str(value)`. For rationals that are not integers the
decimal rendering of a float is approximated by a fraction rendering; the
claims about extension text only evaluate it on string cells. -/
def pyStr : Value → String
  | Value.str s => s
  | Value.num q => if q.den = 1 then toString q.num else toString q.num ++ "/" ++ toString q.den
  | Value.bool b => if b then "True" else "False"
  | Value.time t => toString t.num ++ "/" ++ toString t.den

section Dict

variable {α : Type}

/-- First-match lookup in an association list (python dict access). -/
def dlookup (k : String) : List (String × α) → Option α
  | [] => none
  | kv :: rest => if kv.1 = k then some kv.2 else dlookup k rest

/-- Python dict lookup with a default. -/
def dlookupD (d : List (String × α)) (k : String) (v : α) : α :=
  (dlookup k d).getD v

/-- Python dict assignment `d[k] = v`: overwrite in place when the key exists,
append otherwise. -/
def setKey (d : List (String × α)) (k : String) (v : α) : List (String × α) :=
  if k ∈ d.map Prod.fst then
    d.map (fun kv => if kv.1 = k then (kv.1, v) else kv)
  else d ++ [(k, v)]

/-- Python `del d[k]`. -/
def eraseKey (d : List (String × α)) (k : String) : List (String × α) :=
  d.filter (fun kv => !(kv.1 = k))

/-- Python dict merge: keys of the first dict keep their position, taking the
second dict's value on collision; remaining keys of the second dict follow. -/
def mergeDict (a b : List (String × α)) : List (String × α) :=
  a.map (fun kv => (kv.1, (dlookup kv.1 b).getD kv.2)) ++
    b.filter (fun kv => (dlookup kv.1 a).isNone)

/-- Deduplication keeping the first occurrence (models building a python set
of tags; the set's iteration order is arbitrary, we fix first-seen order). -/
def firstDedup (l : List String) : List String :=
  l.foldl (fun acc t => if t ∈ acc then acc else acc ++ [t]) []

end Dict

/-! ## The parsed GPX document (external collaborator's data model) -/

/-- A parsed track point: the four standard attributes the flattener special
cases, the remaining introspected native attributes (`satellites`, `speed`,
`comment`, ... — all points of a document share one attribute list), and the
ordered extension entries as (tag, text) pairs. The constant XML namespace
decoration of tags is omitted. -/
structure GPoint where
  time : Option ℚ
  longitude : ℚ
  latitude : ℚ
  elevation : Option ℚ
  others : List (String × Option Value)
  extensions : List (String × String)
deriving DecidableEq, Repr

structure GSegment where
  points : List GPoint
deriving DecidableEq, Repr

structure GTrack where
  segments : List GSegment
deriving DecidableEq, Repr

structure GPX where
  tracks : List GTrack
deriving DecidableEq, Repr

/-- All points in document traversal order (tracks, then segments, then points). -/
def allPoints (g : GPX) : List GPoint :=
  g.tracks.flatMap (fun t => t.segments.flatMap (fun s => s.points))

/-- `gpx.tracks[0].segments[0].points[0]`: the point whose class the code
introspects; indexing raises when any of the three lists is empty. -/
def firstPoint (g : GPX) : Option GPoint :=
  match g.tracks with
  | [] => none
  | t :: _ =>
    match t.segments with
    | [] => none
    | s :: _ =>
      match s.points with
      | [] => none
      | p :: _ => some p

/-- `getattr(point, item)` for the attribute names the flattener iterates. -/
def attrVal (p : GPoint) : String → Option Value
  | "time" => p.time.map Value.time
  | "longitude" => some (Value.num p.longitude)
  | "latitude" => some (Value.num p.latitude)
  | "elevation" => p.elevation.map Value.num
  | k => ((p.others.lookup k).join)

/-- `items_delete` in `_gpx_to_dict`. -/
def itemsDelete : List String :=
  ["extensions", "gpx_10_fields", "gpx_11_fields", "time", "longitude", "latitude", "elevation"]

/-- Per point, the cell of extension column `t`: a `None` slot is appended for
each tag and then `extensions[extension.tag][-1] = extension.text` overwrites
it for every entry of the point in order, so the last matching entry wins. -/
def extColVal (exts : List (String × String)) (t : String) : Option String :=
  exts.foldl (fun acc e => if e.1 = t then some e.2 else acc) none

/-- The `items` list of `_gpx_to_dict`: the four special attributes prepended
to the introspected attribute names with `items_delete` removed. -/
def stdItems (p0 : GPoint) : List String :=
  ["time", "longitude", "latitude", "elevation"] ++
    ((p0.others.map Prod.fst).filter (fun k => !(k ∈ itemsDelete)))

/-- The `gpx_data` dict before extensions: one column per item, holding
`getattr(point, item)` for every point in traversal order. -/
def rawColumns (g : GPX) (p0 : GPoint) : List (String × List (Option Value)) :=
  (stdItems p0).map (fun item => (item, (allPoints g).map (fun p => attrVal p item)))

/-- `set(ext_tags)`: the distinct extension tags over all points (the python
set's arbitrary iteration order fixed as first-seen order). -/
def extTagsOf (g : GPX) : List String :=
  firstDedup ((allPoints g).flatMap (fun p => p.extensions.map Prod.fst))

/-- The `extensions` dict: one column per distinct tag, each point's cell
being the last matching entry's text (or None). -/
def extColumns (g : GPX) : List (String × List (Option Value)) :=
  (extTagsOf g).map
    (fun tag => (tag, (allPoints g).map (fun p => (extColVal p.extensions tag).map Value.str)))

/-- `gpx_data = {**gpx_data, **extensions}` when extensions are exported. -/
def mergedColumns (g : GPX) (p0 : GPoint) (export_extensions : Bool) :
    List (String × List (Option Value)) :=
  if export_extensions then mergeDict (rawColumns g p0) (extColumns g)
  else rawColumns g p0

/-- The unconditional schema rename:
`gpx_data['altitude'] = gpx_data['elevation']; del gpx_data['elevation']`. -/
def renamedColumns (g : GPX) (p0 : GPoint) (export_extensions : Bool) :
    List (String × List (Option Value)) :=
  eraseKey
    (setKey (mergedColumns g p0 export_extensions) "altitude"
      (dlookupD (mergedColumns g p0 export_extensions) "elevation" []))
    "elevation"

/-- The column pruner: `for column in gpx_data.copy().keys(): if not
any(gpx_data[column]): del gpx_data[column]` — a column survives exactly when
some cell of it is truthy. -/
def pruneColumns (d : List (String × List (Option Value))) :
    List (String × List (Option Value)) :=
  d.filter (fun kv => kv.2.any truthyCell)

/-- Embedding of `Converter._gpx_to_dict`. The five column-name parameters are
accepted exactly as in the source, where they appear only in a commented-out
line and are never read; `export_extensions` is honoured. Returns the python
dict mapping column name to the list of cells, or the uncaught index error
raised by `gpx.tracks[0].segments[0].points[0]`. -/
def gpxToDict (g : GPX) (lats_colname longs_colname times_colname alts_colname
    sats_colname : String) (export_extensions : Bool) :
    Except String (List (String × List (Option Value))) :=
  match firstPoint g with
  | none => Except.error "list index out of range"
  | some p0 => Except.ok (pruneColumns (renamedColumns g p0 export_extensions))

/-! ## Table to document: `Converter.dataframe_to_gpx` -/

/-- A pandas DataFrame, column oriented; all columns have one shared length. -/
def DFrame := List (String × List (Option Value))

/-- The caller supplied source-column configuration of `dataframe_to_gpx`
(`None` column names stay unconfigured). `time_format` and `time_utc` only
select which external parse is used; the parse itself is a parameter below. -/
structure GpxCfg where
  lats_colname : Option String := some "latitude"
  longs_colname : Option String := some "longitude"
  times_colname : Option String := none
  alts_colname : Option String := none
  speed_colname : Option String := none
  symbol_colname : Option String := none
  comment_colname : Option String := none
  name_colname : Option String := none
  horizontal_dilution_colname : Option String := none
  vertical_dilution_colname : Option String := none
  position_dilution_colname : Option String := none
  gps_speed_colname : Option String := none
  gear_colname : Option String := none
  engine_temp_colname : Option String := none
  ambient_temp_colname : Option String := none
  front_tire_pr_colname : Option String := none
  rear_tire_pr_colname : Option String := none
  odo_colname : Option String := none
  bt_volt_colname : Option String := none
  throttle_colname : Option String := none
  front_brakes_colname : Option String := none
  rear_brakes_colname : Option String := none
  shifts_colname : Option String := none
  vin_colname : Option String := none
  ambient_light_colname : Option String := none
  trip1_colname : Option String := none
  trip2_colname : Option String := none
  trip_auto_colname : Option String := none
  avg_speed_colname : Option String := none
  crnt_consumption_colname : Option String := none
  fuel1_economy_colname : Option String := none
  fuel2_economy_colname : Option String := none
  fuel_range_colname : Option String := none
  lean_angle_mobile_colname : Option String := none
  g_force_colname : Option String := none
  bearing_colname : Option String := none
  barometer_kpa_colname : Option String := none
  rpm_colname : Option String := none
  lean_angle_colname : Option String := none
  rear_wheel_speed_colname : Option String := none
  device_batt_colname : Option String := none

/-- The helper `_get(df, idx, col)`: `None` for an unconfigured (falsy) column
name, a column absent from the table, or a null/NaN cell. -/
def getV (df : DFrame) (i : ℕ) (col : Option String) : Option Value :=
  match col with
  | none => none
  | some c =>
    if c = "" then none
    else
      match dlookup c df with
      | none => none
      | some vals => (vals.get? i).join

/-- The bulk `pd.to_datetime(input_df[times_colname], ..., errors="coerce")`
pre-pass: when a time column name is configured (truthy) and present, that
column of the caller's dataframe is overwritten with the element-wise parsed
values. The pandas parser itself (format or inferred, utc flag) is the
external collaborator `parse`. -/
def parseTimes (parse : Option Value → Option Value) (df : DFrame) (cfg : GpxCfg) : DFrame :=
  match cfg.times_colname with
  | none => df
  | some tc =>
    if tc = "" then df
    else
      match dlookup tc df with
      | none => df
      | some vals => setKey df tc (vals.map parse)

/-- The fixed telemetry catalogue: the `_add_ext` calls of `dataframe_to_gpx`
in source order, as (stable tag name, configured source column) pairs.
The altitude field mirrors the native elevation source column. -/
def telemetryCatalogue (cfg : GpxCfg) : List (String × Option String) :=
  [("speed_kmh", cfg.speed_colname),
   ("gps_speed_kmh", cfg.gps_speed_colname),
   ("altitude_m", cfg.alts_colname),
   ("gear", cfg.gear_colname),
   ("engine_temp_c", cfg.engine_temp_colname),
   ("ambient_temp_c", cfg.ambient_temp_colname),
   ("front_tire_pressure_bar", cfg.front_tire_pr_colname),
   ("rear_tire_pressure_bar", cfg.rear_tire_pr_colname),
   ("odometer_km", cfg.odo_colname),
   ("battery_voltage_v", cfg.bt_volt_colname),
   ("throttle_pct", cfg.throttle_colname),
   ("front_brakes", cfg.front_brakes_colname),
   ("rear_brakes", cfg.rear_brakes_colname),
   ("shifts", cfg.shifts_colname),
   ("vin", cfg.vin_colname),
   ("ambient_light", cfg.ambient_light_colname),
   ("trip1_km", cfg.trip1_colname),
   ("trip2_km", cfg.trip2_colname),
   ("trip_auto_km", cfg.trip_auto_colname),
   ("avg_speed_kmh", cfg.avg_speed_colname),
   ("current_consumption_l_per_100km", cfg.crnt_consumption_colname),
   ("fuel_economy_1_l_per_100km", cfg.fuel1_economy_colname),
   ("fuel_economy_2_l_per_100km", cfg.fuel2_economy_colname),
   ("fuel_range_km", cfg.fuel_range_colname),
   ("lean_angle_mobile_deg", cfg.lean_angle_mobile_colname),
   ("g_force", cfg.g_force_colname),
   ("bearing_deg", cfg.bearing_colname),
   ("barometer_kpa", cfg.barometer_kpa_colname),
   ("rpm", cfg.rpm_colname),
   ("lean_angle_deg", cfg.lean_angle_colname),
   ("rear_wheel_speed_kmh", cfg.rear_wheel_speed_colname),
   ("device_battery_pct", cfg.device_batt_colname)]

/-- The sequence of `_add_ext(p, tag, _get(df, idx, col))` calls: each call
appends one (tag, stringified value) entry when the value is non-null and
nothing otherwise. -/
def mkExts (df : DFrame) (cfg : GpxCfg) (i : ℕ) : List (String × String) :=
  (telemetryCatalogue cfg).foldl
    (fun acc tc =>
      match getV df i tc.2 with
      | none => acc
      | some v => acc ++ [(tc.1, pyStr v)])
    []

/-- An output `GPXTrackPoint` as constructed by `dataframe_to_gpx`, with its
extension list. -/
structure TPoint where
  latitude : Value
  longitude : Value
  time_val : Option ℚ
  elevation : Option Value
  speed : Option Value
  symbol : Option Value
  comment : Option Value
  name : Option Value
  horizontal_dilution : Option Value
  vertical_dilution : Option Value
  position_dilution : Option Value
  extensions : List (String × String)
deriving DecidableEq, Repr

/-- One iteration of the row loop of `dataframe_to_gpx`: `None` when the row
is skipped because latitude or longitude is null, otherwise the point built
from the row (its time only kept when the cell is a genuine timestamp). -/
def mkPoint (df : DFrame) (cfg : GpxCfg) (i : ℕ) : Option TPoint :=
  match getV df i cfg.lats_colname, getV df i cfg.longs_colname with
  | some lat, some lon =>
    some
      { latitude := lat
        longitude := lon
        time_val :=
          match getV df i cfg.times_colname with
          | some (Value.time t) => some t
          | _ => none
        elevation := getV df i cfg.alts_colname
        speed := getV df i cfg.speed_colname
        symbol := getV df i cfg.symbol_colname
        comment := getV df i cfg.comment_colname
        name := getV df i cfg.name_colname
        horizontal_dilution := getV df i cfg.horizontal_dilution_colname
        vertical_dilution := getV df i cfg.vertical_dilution_colname
        position_dilution := getV df i cfg.position_dilution_colname
        extensions := mkExts df cfg i }
  | _, _ => none

/-- Number of rows of the dataframe (`input_df.index` with a range index). -/
def numRows (df : DFrame) : ℕ :=
  match df with
  | [] => 0
  | c :: _ => c.2.length

/-- The row loop: points appended to the track segment in row order, skipped
rows contributing nothing. -/
def dfPoints (df : DFrame) (cfg : GpxCfg) : List TPoint :=
  (List.range (numRows df)).foldl
    (fun acc i =>
      match mkPoint df cfg i with
      | none => acc
      | some p => acc ++ [p])
    []

/-- Embedding of `Converter.dataframe_to_gpx`, up to the external XML writer:
the caller's dataframe after the in-place time-column parse, together with
the points of the single produced track segment. -/
def dfToGpx (parse : Option Value → Option Value) (df : DFrame) (cfg : GpxCfg) :
    DFrame × List TPoint :=
  let df2 := parseTimes parse df cfg
  (df2, dfPoints df2 cfg)

/-! ## Curve resampling: `Converter.spline_interpolation` -/

/-- The data handed to the external evaluator `scipy.interpolate.splev`:
knot vector, control points transposed per dimension, degree, and the sampled
parameter values. -/
structure SplineCall where
  knots : List ℤ
  ctrl : List (List ℚ)
  degree : ℤ
  params : List ℚ
deriving DecidableEq, Repr

/-- `np.linspace(a, b, n)` over exact rationals (for n = 1 the formula yields
the start point, matching numpy). -/
def linspace (a b : ℚ) (n : ℕ) : List ℚ :=
  (List.range n).map (fun i => a + (b - a) * i / ((n : ℚ) - 1))

/-- Embedding of `Converter.spline_interpolation`. The source contains no
validity check of its own: the only error path is python's division by zero
in `divmod` when a periodic call gets an empty control sequence. `np.clip`
is `min hi (max x lo)`; python list repetition with a negative count is empty,
which `Int.toNat` mirrors. -/
def spline_interpolation (cv : List (List ℚ)) (n : ℕ) (degree : ℕ) (periodic : Bool) :
    Except String SplineCall :=
  let count := cv.length
  if periodic then
    if count = 0 then Except.error "integer division or modulo by zero"
    else
      let factor := (count + degree + 1) / count
      let fraction := (count + degree + 1) % count
      let cv2 := (List.replicate factor cv).flatten ++ cv.take fraction
      let count2 := cv2.length
      let deg : ℤ := min (degree : ℤ) (max (degree : ℤ) 1)
      let kv := (List.range (((count2 : ℤ) + deg + deg - 1 - (0 - deg)).toNat)).map
        (fun i => (i : ℤ) + (0 - deg))
      let u := linspace 1 ((count2 : ℚ) - (deg : ℚ)) n
      Except.ok { knots := kv, ctrl := cv2.transpose, degree := deg, params := u }
  else
    let deg : ℤ := min ((count : ℤ) - 1) (max (degree : ℤ) 1)
    let kv := List.replicate deg.toNat (0 : ℤ) ++
      (List.range (((count : ℤ) - deg + 1).toNat)).map (fun i => (i : ℤ)) ++
      List.replicate deg.toNat ((count : ℤ) - deg)
    let u := linspace 0 ((count : ℚ) - (deg : ℚ)) n
    Except.ok { knots := kv, ctrl := cv.transpose, degree := deg, params := u }

/-! ## Concrete inputs used by witnesses and counterexamples -/

/-- A one-point document carrying a satellites attribute, used to exhibit the
ignored column-name configuration. -/
def c1doc : GPX :=
  { tracks := [{ segments := [{ points := [
      { time := none, longitude := 9, latitude := 7, elevation := none,
        others := [("satellites", some (Value.num 4))], extensions := [] }] }] }] }

/-- A three-row table whose second row has no latitude value. -/
def c2df : DFrame :=
  [("latitude", [some (Value.num 1), none, some (Value.num 3)]),
   ("longitude", [some (Value.num 4), some (Value.num 5), some (Value.num 6)])]

/-- The point produced from the first row of `c2df`. -/
def c2pointA : TPoint :=
  { latitude := Value.num 1, longitude := Value.num 4, time_val := none,
    elevation := none, speed := none, symbol := none, comment := none,
    name := none, horizontal_dilution := none, vertical_dilution := none,
    position_dilution := none, extensions := [] }

/-- The point produced from the third row of `c2df`. -/
def c2pointB : TPoint :=
  { latitude := Value.num 3, longitude := Value.num 6, time_val := none,
    elevation := none, speed := none, symbol := none, comment := none,
    name := none, horizontal_dilution := none, vertical_dilution := none,
    position_dilution := none, extensions := [] }

/-- A one-row table with an engine temperature column. -/
def c3df : DFrame :=
  [("latitude", [some (Value.num 1)]), ("longitude", [some (Value.num 2)]),
   ("engine_temp", [some (Value.str "87.5")])]

/-- A configuration mapping only the engine temperature source column. -/
def c3cfg : GpxCfg := { engine_temp_colname := some "engine_temp" }

/-- The point produced from the only row of `c3df` under `c3cfg`. -/
def c3point : TPoint :=
  { latitude := Value.num 1, longitude := Value.num 2, time_val := none,
    elevation := none, speed := none, symbol := none, comment := none,
    name := none, horizontal_dilution := none, vertical_dilution := none,
    position_dilution := none, extensions := [("engine_temp_c", "87.5")] }

/-- A table whose satellites column is null in every row. -/
def c4nulls : List (String × List (Option Value)) :=
  [("latitude", [some (Value.num 1), some (Value.num 2)]),
   ("satellites", [none, none])]

/-- A table whose satellites column has one truthy value. -/
def c4mixed : List (String × List (Option Value)) :=
  [("satellites", [some (Value.num 4), none])]

/-- The round-trip reconstruction configuration matching the flattener's
fixed output column names. -/
def roundTripCfg : GpxCfg :=
  { lats_colname := some "latitude", longs_colname := some "longitude",
    times_colname := some "time", alts_colname := some "altitude" }

/-- A document with a single point of nonzero elevation, round-tripped in the
witness of the amended round-trip claim. -/
def c7doc : GPX :=
  { tracks := [{ segments := [{ points := [
      { time := none, longitude := 2, latitude := 1, elevation := some 5,
        others := [], extensions := [] }] }] }] }

/-- The first point of `c7doc`. -/
def c7p0 : GPoint :=
  { time := none, longitude := 2, latitude := 1, elevation := some 5,
    others := [], extensions := [] }

/-- The table the flattener produces from `c7doc`. -/
def c7tbl : List (String × List (Option Value)) :=
  [("longitude", [some (Value.num 2)]), ("latitude", [some (Value.num 1)]),
   ("altitude", [some (Value.num 5)])]

/-- A document with a single point of elevation zero: the altitude column it
flattens to is all-falsy and is pruned away. -/
def c7zdoc : GPX :=
  { tracks := [{ segments := [{ points := [
      { time := none, longitude := 2, latitude := 1, elevation := some 0,
        others := [], extensions := [] }] }] }] }

/-- The table the flattener produces from `c7zdoc`: no altitude column. -/
def c7ztbl : List (String × List (Option Value)) :=
  [("longitude", [some (Value.num 2)]), ("latitude", [some (Value.num 1)])]

/-- A one-row table with a time column and a latitude column. -/
def c10df : DFrame :=
  [("t", [some (Value.str "2025-06-15 18:24:20")]), ("latitude", [some (Value.num 1)])]

/-- A configuration naming the time column of `c10df`. -/
def c10cfg : GpxCfg := { times_colname := some "t" }

/-! ## Helper lemmas on the dictionary operations -/

section DictLemmas

variable {α β : Type}

theorem dlookup_append (k : String) (a b : List (String × α)) :
    dlookup k (a ++ b) = (dlookup k a).or (dlookup k b) := by
  induction a with
  | nil => simp [dlookup]
  | cons kv rest ih =>
    by_cases h : kv.1 = k <;> simp [dlookup, h, ih]

theorem dlookup_eq_none_iff (k : String) (d : List (String × α)) :
    dlookup k d = none ↔ k ∉ d.map Prod.fst := by
  induction d with
  | nil => simp [dlookup]
  | cons kv rest ih =>
    by_cases h : kv.1 = k
    · simp [dlookup, h]
    · simp only [dlookup, h, if_false, List.map_cons, List.mem_cons, not_or]
      rw [ih]
      exact ⟨fun hn => ⟨fun hc => h hc.symm, hn⟩, fun hn => hn.2⟩

theorem dlookup_map_pair (k : String) (d : List (String × α)) (f : String → α → β) :
    dlookup k (d.map (fun kv => (kv.1, f kv.1 kv.2))) = (dlookup k d).map (f k) := by
  induction d with
  | nil => simp [dlookup]
  | cons kv rest ih =>
    by_cases h : kv.1 = k <;> simp [dlookup, h, ih]

theorem dlookup_map_self (k : String) (items : List String) (g : String → α) :
    dlookup k (items.map (fun it => (it, g it))) = if k ∈ items then some (g k) else none := by
  induction items with
  | nil => simp [dlookup]
  | cons it rest ih =>
    by_cases h : it = k
    · subst h; simp [dlookup]
    · simp [dlookup, h, ih, Ne.symm h]

theorem dlookup_filter_of_key (k : String) (d : List (String × α)) (p : String × α → Bool)
    (hp : ∀ v, p (k, v) = true) :
    dlookup k (d.filter p) = dlookup k d := by
  induction d with
  | nil => simp [dlookup]
  | cons kv rest ih =>
    by_cases h : kv.1 = k
    · have : p kv = true := by
        have : kv = (k, kv.2) := by rw [← h]
        rw [this]; exact hp kv.2
      simp [List.filter, this, dlookup, h]
    · by_cases hpkv : p kv = true <;> simp [List.filter, hpkv, dlookup, h, ih]

theorem dlookup_filter_sub (k : String) (d : List (String × α)) (p : String × α → Bool)
    (h : dlookup k d = none) : dlookup k (d.filter p) = none := by
  rw [dlookup_eq_none_iff] at h ⊢
  intro hmem
  exact h (((List.filter_sublist d).map Prod.fst).subset hmem)

theorem dlookup_filter_nodup (k : String) (d : List (String × α)) (p : String × α → Bool)
    (hnd : (d.map Prod.fst).Nodup) :
    dlookup k (d.filter p) =
      (dlookup k d).bind (fun v => if p (k, v) then some v else none) := by
  induction d with
  | nil => simp [dlookup]
  | cons kv rest ih =>
    simp only [List.map_cons, List.nodup_cons] at hnd
    by_cases h : kv.1 = k
    · have hkv : kv = (k, kv.2) := by rw [← h]
      by_cases hpkv : p kv = true
      · simp [List.filter, hpkv, dlookup, h, hkv ▸ hpkv]
      · have hrest : dlookup k rest = none := by
          rw [dlookup_eq_none_iff]; rw [h] at hnd; exact hnd.1
        have hp2 : p (k, kv.2) = false := by
          rw [← hkv]; exact Bool.eq_false_iff.mpr hpkv
        simp [List.filter, hpkv, dlookup, h, hp2, dlookup_filter_sub k rest p hrest]
    · by_cases hpkv : p kv = true <;>
        simp [List.filter, hpkv, dlookup, h, ih hnd.2]

theorem dlookup_map_merge (k : String) (a b : List (String × α)) :
    dlookup k (a.map (fun kv => (kv.1, (dlookup kv.1 b).getD kv.2))) =
      (dlookup k a).map (fun v => (dlookup k b).getD v) := by
  induction a with
  | nil => simp [dlookup]
  | cons kv rest ih =>
    by_cases h : kv.1 = k <;> simp [dlookup, h, ih]

theorem dlookup_mergeDict (k : String) (a b : List (String × α)) :
    dlookup k (mergeDict a b) =
      match dlookup k a with
      | some v => some ((dlookup k b).getD v)
      | none => dlookup k b := by
  unfold mergeDict
  rw [dlookup_append, dlookup_map_merge]
  cases h : dlookup k a with
  | some v => simp [Option.or]
  | none =>
    simp only [Option.map_none]
    have hf : dlookup k (b.filter (fun kv => (dlookup kv.1 a).isNone)) = dlookup k b :=
      dlookup_filter_of_key k b _ (fun v => by simp [h])
    simp [Option.or, hf]

theorem dlookup_setKey_self (k : String) (d : List (String × α)) (v : α) :
    dlookup k (setKey d k v) = some v := by
  unfold setKey
  by_cases hk : k ∈ d.map Prod.fst
  · simp only [hk, if_true]
    induction d with
    | nil => simp at hk
    | cons kv rest ih =>
      by_cases h : kv.1 = k
      · simp [dlookup, h]
      · simp only [List.map_cons, List.mem_cons] at hk
        rcases hk with hk | hk
        · exact absurd hk.symm h
        · simp [dlookup, h, ih hk]
  · simp only [hk, if_false]
    rw [dlookup_append]
    have : dlookup k d = none := (dlookup_eq_none_iff k d).mpr hk
    simp [this, dlookup]

theorem dlookup_map_setKey (k k' : String) (d : List (String × α)) (v : α)
    (h : k' ≠ k) :
    dlookup k' (d.map (fun kv => if kv.1 = k then (kv.1, v) else kv)) = dlookup k' d := by
  induction d with
  | nil => simp [dlookup]
  | cons kv rest ih =>
    by_cases hkv : kv.1 = k
    · have h1 : ¬(kv.1 = k') := by rw [hkv]; exact fun hh => h hh.symm
      have h3 : ¬(k = k') := fun hh => h hh.symm
      simp [dlookup, hkv, h1, h3, ih]
    · by_cases h2 : kv.1 = k' <;> simp [dlookup, hkv, h2, ih, h]

theorem dlookup_setKey_other (k k' : String) (d : List (String × α)) (v : α)
    (h : k' ≠ k) : dlookup k' (setKey d k v) = dlookup k' d := by
  unfold setKey
  by_cases hk : k ∈ d.map Prod.fst
  · simp only [hk, if_true]
    exact dlookup_map_setKey k k' d v h
  · simp only [hk, if_false]
    rw [dlookup_append]
    have h2 : dlookup k' [(k, v)] = none := by simp [dlookup, Ne.symm h]
    rw [h2]
    cases dlookup k' d <;> simp [Option.or]

theorem dlookup_eraseKey_self (k : String) (d : List (String × α)) :
    dlookup k (eraseKey d k) = none := by
  rw [dlookup_eq_none_iff]
  intro hmem
  simp only [eraseKey] at hmem
  obtain ⟨kv, hkv, hfst⟩ := List.mem_map.mp hmem
  have := List.of_mem_filter hkv
  simp [hfst] at this

theorem dlookup_eraseKey_other (k k' : String) (d : List (String × α)) (h : k' ≠ k) :
    dlookup k' (eraseKey d k) = dlookup k' d :=
  dlookup_filter_of_key k' d _ (fun _ => by simp [h])

theorem map_fst_map_merge (a b : List (String × α)) :
    (a.map (fun kv => (kv.1, (dlookup kv.1 b).getD kv.2))).map Prod.fst = a.map Prod.fst := by
  induction a with
  | nil => rfl
  | cons kv rest ih => simp [ih]

theorem map_fst_map_self (items : List String) (g : String → α) :
    (items.map (fun it => (it, g it))).map Prod.fst = items := by
  induction items with
  | nil => rfl
  | cons it rest ih => simp [ih]

theorem nodup_keys_mergeDict (a b : List (String × α))
    (ha : (a.map Prod.fst).Nodup) (hb : (b.map Prod.fst).Nodup) :
    ((mergeDict a b).map Prod.fst).Nodup := by
  unfold mergeDict
  rw [List.map_append, List.nodup_append]
  refine ⟨by rw [map_fst_map_merge]; exact ha, ?_, ?_⟩
  · exact hb.sublist ((List.filter_sublist b).map Prod.fst)
  · intro x hx hx2
    rw [map_fst_map_merge] at hx
    obtain ⟨kv, hkv, hfst⟩ := List.mem_map.mp hx2
    have hpred := List.of_mem_filter hkv
    rw [hfst] at hpred
    rw [Option.isNone_iff_eq_none, dlookup_eq_none_iff] at hpred
    exact hpred hx

theorem nodup_keys_setKey (d : List (String × α)) (k : String) (v : α)
    (hd : (d.map Prod.fst).Nodup) : ((setKey d k v).map Prod.fst).Nodup := by
  unfold setKey
  by_cases hk : k ∈ d.map Prod.fst
  · simp only [hk, if_true]
    have : (d.map (fun kv => if kv.1 = k then (kv.1, v) else kv)).map Prod.fst
        = d.map Prod.fst := by
      simp only [List.map_map]
      apply List.map_congr_left
      intro kv _
      by_cases h : kv.1 = k <;> simp [h]
    rw [this]; exact hd
  · simp only [hk, if_false]
    rw [List.map_append, List.nodup_append]
    exact ⟨hd, List.nodup_singleton k, by simpa using hk⟩

theorem nodup_keys_eraseKey (d : List (String × α)) (k : String)
    (hd : (d.map Prod.fst).Nodup) : ((eraseKey d k).map Prod.fst).Nodup :=
  hd.sublist ((List.filter_sublist d).map Prod.fst)

end DictLemmas

/-! ## Helper lemmas on folds and filters -/

section FoldLemmas

variable {β γ : Type}

theorem head?_filter_eq_find? (p : β → Bool) (l : List β) :
    (l.filter p).head? = l.find? p := by
  induction l with
  | nil => rfl
  | cons a rest ih =>
    by_cases h : p a = true <;> simp [List.filter, List.find?, h, ih]

theorem getLast?_filter_eq_find?_reverse (p : β → Bool) (l : List β) :
    (l.filter p).getLast? = l.reverse.find? p := by
  rw [List.getLast?_eq_head?_reverse, ← List.filter_reverse, head?_filter_eq_find?]

theorem foldl_overwrite (t : String) (l : List (String × String)) (acc : Option String) :
    l.foldl (fun a e => if e.1 = t then some e.2 else a) acc
      = ((l.reverse.find? (fun e => e.1 = t)).map Prod.snd).or acc := by
  induction l generalizing acc with
  | nil => simp
  | cons e rest ih =>
    rw [List.foldl_cons, ih]
    simp only [List.reverse_cons, List.find?_append]
    cases hr : rest.reverse.find? (fun e => decide (e.1 = t)) with
    | some x => simp [Option.or]
    | none =>
      by_cases h : e.1 = t <;> simp [List.find?, h, Option.or]

theorem foldl_skip_eq_filterMap (f : β → Option γ) (l : List β) (acc : List γ) :
    l.foldl (fun a x => match f x with | none => a | some y => a ++ [y]) acc
      = acc ++ l.filterMap f := by
  induction l generalizing acc with
  | nil => simp
  | cons x rest ih =>
    cases h : f x <;> simp [List.filterMap_cons, h, ih]

theorem foldl_emit_eq_flatMap (g : β → List γ) (l : List β) (acc : List γ) :
    l.foldl (fun a x => a ++ g x) acc = acc ++ l.flatMap g := by
  induction l generalizing acc with
  | nil => simp
  | cons x rest ih => simp [ih]

/-- Filtering the concatenated emissions of a keyed catalogue down to one key
selects exactly the emission of that key, provided every emission carries its
own key and the keys are distinct. -/
theorem filter_flatMap_key (emit : String × Option String → List (String × String))
    (hemit : ∀ tc e, e ∈ emit tc → e.1 = tc.1)
    (l : List (String × Option String)) (hnd : (l.map Prod.fst).Nodup)
    (tag : String) (col : Option String) (hmem : (tag, col) ∈ l) :
    (l.flatMap emit).filter (fun e => e.1 = tag) = emit (tag, col) := by
  induction l with
  | nil => simp at hmem
  | cons tc rest ih =>
    simp only [List.map_cons, List.nodup_cons] at hnd
    rw [List.flatMap_cons, List.filter_append]
    rcases List.mem_cons.mp hmem with heq | hrest
    · subst heq
      have h1 : (emit (tag, col)).filter (fun e => e.1 = tag) = emit (tag, col) :=
        List.filter_eq_self.mpr (fun e he => by
          simp [hemit (tag, col) e he])
      have h2 : (rest.flatMap emit).filter (fun e => e.1 = tag) = [] := by
        apply List.filter_eq_nil_iff.mpr
        intro e he
        obtain ⟨tc', htc', he'⟩ := List.mem_flatMap.mp he
        have hkey := hemit tc' e he'
        have h0 : tag ∉ rest.map Prod.fst := by simpa using hnd.1
        have htagne : tc'.1 ≠ tag := by
          intro hcontra
          apply h0
          rw [← hcontra]
          exact List.mem_map_of_mem Prod.fst htc'
        simp [hkey, htagne]
      rw [h1, h2, List.append_nil]
    · have htcne : tc.1 ≠ tag := by
        intro hcontra
        have : tag ∈ rest.map Prod.fst := by
          have := List.mem_map_of_mem Prod.fst hrest
          simpa using this
        exact hnd.1 (hcontra ▸ this)
      have h1 : (emit tc).filter (fun e => e.1 = tag) = [] :=
        List.filter_eq_nil_iff.mpr (fun e he => by simp [hemit tc e he, htcne])
      rw [h1, List.nil_append]
      exact ih hnd.2 hrest

end FoldLemmas

/-! ## Helper lemmas about the embedded operations -/

theorem extColVal_eq (exts : List (String × String)) (t : String) :
    extColVal exts t = ((exts.filter (fun e => e.1 = t)).getLast?).map Prod.snd := by
  unfold extColVal
  rw [foldl_overwrite, getLast?_filter_eq_find?_reverse]
  cases exts.reverse.find? (fun e => decide (e.1 = t)) <;> simp [Option.or]

theorem mem_firstDedup (l : List String) (t : String) :
    t ∈ firstDedup l ↔ t ∈ l := by
  unfold firstDedup
  suffices h : ∀ (l : List String) (acc : List String),
      t ∈ l.foldl (fun acc t => if t ∈ acc then acc else acc ++ [t]) acc ↔ t ∈ acc ∨ t ∈ l by
    simpa using h l []
  intro l
  induction l with
  | nil => intro acc; simp
  | cons x rest ih =>
    intro acc
    by_cases hx : x ∈ acc
    · rw [List.foldl_cons]
      simp only [hx, if_true, ih]
      constructor
      · rintro (h | h)
        · exact Or.inl h
        · exact Or.inr (List.mem_cons_of_mem x h)
      · rintro (h | h)
        · exact Or.inl h
        · rcases List.mem_cons.mp h with rfl | h
          · exact Or.inl hx
          · exact Or.inr h
    · rw [List.foldl_cons]
      simp only [hx, if_false, ih]
      constructor
      · rintro (h | h)
        · rcases List.mem_append.mp h with h | h
          · exact Or.inl h
          · simp at h; exact Or.inr (h ▸ List.mem_cons_self x rest)
        · exact Or.inr (List.mem_cons_of_mem x h)
      · rintro (h | h)
        · exact Or.inl (List.mem_append_left _ h)
        · rcases List.mem_cons.mp h with rfl | h
          · exact Or.inl (List.mem_append_right _ (by simp))
          · exact Or.inr h

theorem firstDedup_nodup (l : List String) : (firstDedup l).Nodup := by
  unfold firstDedup
  suffices h : ∀ (l : List String) (acc : List String),
      acc.Nodup → (l.foldl (fun acc t => if t ∈ acc then acc else acc ++ [t]) acc).Nodup by
    exact h l [] List.nodup_nil
  intro l
  induction l with
  | nil => intro acc hacc; exact hacc
  | cons x rest ih =>
    intro acc hacc
    rw [List.foldl_cons]
    by_cases hx : x ∈ acc
    · simp only [hx, if_true]; exact ih acc hacc
    · simp only [hx, if_false]
      apply ih
      rw [List.nodup_append]
      exact ⟨hacc, List.nodup_singleton x, by simpa using hx⟩

theorem mkExts_eq_flatMap (df : DFrame) (cfg : GpxCfg) (i : ℕ) :
    mkExts df cfg i = (telemetryCatalogue cfg).flatMap
      (fun tc =>
        match getV df i tc.2 with
        | none => []
        | some v => [(tc.1, pyStr v)]) := by
  unfold mkExts
  have hbody : (fun (acc : List (String × String)) (tc : String × Option String) =>
      match getV df i tc.2 with
      | none => acc
      | some v => acc ++ [(tc.1, pyStr v)]) =
      (fun acc tc => acc ++
        (match getV df i tc.2 with
         | none => []
         | some v => [(tc.1, pyStr v)])) := by
    funext acc tc
    cases getV df i tc.2 <;> simp
  rw [hbody, foldl_emit_eq_flatMap]
  simp

theorem telemetryTags_nodup (cfg : GpxCfg) :
    ((telemetryCatalogue cfg).map Prod.fst).Nodup := by
  have h : (telemetryCatalogue cfg).map Prod.fst =
      ["speed_kmh", "gps_speed_kmh", "altitude_m", "gear", "engine_temp_c",
       "ambient_temp_c", "front_tire_pressure_bar", "rear_tire_pressure_bar",
       "odometer_km", "battery_voltage_v", "throttle_pct", "front_brakes",
       "rear_brakes", "shifts", "vin", "ambient_light", "trip1_km", "trip2_km",
       "trip_auto_km", "avg_speed_kmh", "current_consumption_l_per_100km",
       "fuel_economy_1_l_per_100km", "fuel_economy_2_l_per_100km", "fuel_range_km",
       "lean_angle_mobile_deg", "g_force", "bearing_deg", "barometer_kpa", "rpm",
       "lean_angle_deg", "rear_wheel_speed_kmh", "device_battery_pct"] := rfl
  rw [h]
  decide

theorem dfPoints_eq_filterMap (df : DFrame) (cfg : GpxCfg) :
    dfPoints df cfg = (List.range (numRows df)).filterMap (mkPoint df cfg) := by
  unfold dfPoints
  suffices h : ∀ (l : List ℕ) (acc : List TPoint),
      l.foldl (fun acc i =>
        match mkPoint df cfg i with
        | none => acc
        | some p => acc ++ [p]) acc = acc ++ l.filterMap (mkPoint df cfg) by
    simpa using h (List.range (numRows df)) []
  intro l
  induction l with
  | nil => intro acc; simp
  | cons x rest ih =>
    intro acc
    cases h : mkPoint df cfg x <;> simp [List.filterMap_cons, h, ih]

theorem mergedColumns_true (g : GPX) (p0 : GPoint) :
    mergedColumns g p0 true = mergeDict (rawColumns g p0) (extColumns g) := rfl

theorem stdItems_nodup (p0 : GPoint) (h : (p0.others.map Prod.fst).Nodup) :
    (stdItems p0).Nodup := by
  unfold stdItems
  rw [List.nodup_append]
  refine ⟨by decide, h.sublist (List.filter_sublist _), ?_⟩
  intro x hx hx2
  have hpred := List.of_mem_filter hx2
  have hsub : ∀ y ∈ (["time", "longitude", "latitude", "elevation"] : List String),
      y ∈ itemsDelete := by decide
  simp [hsub x hx] at hpred

theorem renamed_keys_nodup (g : GPX) (p0 : GPoint)
    (h : (p0.others.map Prod.fst).Nodup) :
    ((renamedColumns g p0 true).map Prod.fst).Nodup := by
  unfold renamedColumns
  apply nodup_keys_eraseKey
  apply nodup_keys_setKey
  rw [mergedColumns_true]
  apply nodup_keys_mergeDict
  · unfold rawColumns; rw [map_fst_map_self]; exact stdItems_nodup p0 h
  · unfold extColumns; rw [map_fst_map_self]; exact firstDedup_nodup _

theorem flatten_lookup_merged_std (g : GPX) (p0 : GPoint) (k : String)
    (hk : k ∈ stdItems p0) (hkext : k ∉ extTagsOf g) :
    dlookup k (mergedColumns g p0 true) =
      some ((allPoints g).map (fun p => attrVal p k)) := by
  rw [mergedColumns_true, dlookup_mergeDict]
  unfold rawColumns extColumns
  rw [dlookup_map_self, dlookup_map_self]
  simp [hk, hkext]

theorem flatten_lookup_renamed_std (g : GPX) (p0 : GPoint) (k : String)
    (hk : k ∈ stdItems p0) (hkext : k ∉ extTagsOf g)
    (hkalt : k ≠ "altitude") (hkelev : k ≠ "elevation") :
    dlookup k (renamedColumns g p0 true) =
      some ((allPoints g).map (fun p => attrVal p k)) := by
  unfold renamedColumns
  rw [dlookup_eraseKey_other _ _ _ hkelev, dlookup_setKey_other _ _ _ _ hkalt]
  exact flatten_lookup_merged_std g p0 k hk hkext

theorem flatten_lookup_renamed_alt (g : GPX) (p0 : GPoint)
    (helev : "elevation" ∉ extTagsOf g) :
    dlookup "altitude" (renamedColumns g p0 true) =
      some ((allPoints g).map (fun p => attrVal p "elevation")) := by
  unfold renamedColumns
  rw [dlookup_eraseKey_other _ _ _ (by decide), dlookup_setKey_self]
  unfold dlookupD
  rw [flatten_lookup_merged_std g p0 "elevation"
    (by unfold stdItems; exact List.mem_append_left _ (by decide)) helev]
  rfl

theorem flatten_pruned_lookup (g : GPX) (p0 : GPoint)
    (h : (p0.others.map Prod.fst).Nodup) (k : String) :
    dlookup k (pruneColumns (renamedColumns g p0 true)) =
      (dlookup k (renamedColumns g p0 true)).bind
        (fun v => if v.any truthyCell then some v else none) := by
  have hmain := dlookup_filter_nodup k (renamedColumns g p0 true)
    (fun kv => kv.2.any truthyCell) (renamed_keys_nodup g p0 h)
  simpa [pruneColumns] using hmain

theorem getV_some (df : DFrame) (i : ℕ) (k : String) (hk : ¬(k = "")) :
    getV df i (some k) =
      match dlookup k df with
      | none => none
      | some vals => (vals.get? i).join := by
  show (if k = "" then none
    else
      match dlookup k df with
      | none => none
      | some vals => (vals.get? i).join) = _
  rw [if_neg hk]

theorem firstPoint_eq_none_of_no_points (g : GPX) (h : allPoints g = []) :
    firstPoint g = none := by
  obtain ⟨tracks⟩ := g
  cases tracks with
  | nil => rfl
  | cons t ts =>
    obtain ⟨segs⟩ := t
    cases segs with
    | nil => rfl
    | cons s ss =>
      obtain ⟨ptl⟩ := s
      cases ptl with
      | nil => rfl
      | cons p ps =>
        exfalso
        simp [allPoints] at h

/-- On the open path the resampler always reaches the evaluator call. -/
theorem spline_open_isSome (cv : List (List ℚ)) (n d : ℕ) :
    (spline_interpolation cv n d false).toOption.isSome = true := rfl

/-- The degree the open path hands to the evaluator, by direct reduction of
the clamp expression. -/
theorem spline_open_degree (cv : List (List ℚ)) (n d : ℕ) :
    (spline_interpolation cv n d false).toOption.map SplineCall.degree =
      some (min ((cv.length : ℤ) - 1) (max (d : ℤ) 1)) := rfl

/-! ## Claim theorems -/

/-- C1: the spec claims the flattened table's standard columns are named per
the caller-supplied configuration. The code accepts the configuration but
never reads it: the output columns always carry the fixed names (with
elevation renamed to the literal altitude), as evaluated here on a concrete
document converted with latitude key lat, longitude key lon, and so on. -/
theorem c1_colnames_ignored :
    (∀ a b c d e a2 b2 c2 d2 e2 : String,
      gpxToDict c1doc a b c d e true = gpxToDict c1doc a2 b2 c2 d2 e2 true) ∧
    gpxToDict c1doc "lat" "lon" "t" "alt" "sat" true =
      Except.ok [("longitude", [some (Value.num 9)]),
                 ("latitude", [some (Value.num 7)]),
                 ("satellites", [some (Value.num 4)])] ∧
    "lat" ∉ ([("longitude", [some (Value.num 9)]),
              ("latitude", [some (Value.num 7)]),
              ("satellites", [some (Value.num 4)])] :
        List (String × List (Option Value))).map Prod.fst := by
  refine ⟨fun _ _ _ _ _ _ _ _ _ _ => rfl, by rfl, by decide⟩

/-- C2: rows whose latitude or longitude is null or missing are silently
skipped and contribute no point, the rest producing points in input row
order; in particular the three-row table with the second latitude missing
yields exactly the two points of rows one and three. -/
theorem c2_row_drop :
    (∀ (df : DFrame) (cfg : GpxCfg),
      dfPoints df cfg = (List.range (numRows df)).filterMap (mkPoint df cfg)) ∧
    (∀ (df : DFrame) (cfg : GpxCfg) (i : ℕ),
      mkPoint df cfg i = none ↔
        (getV df i cfg.lats_colname = none ∨ getV df i cfg.longs_colname = none)) ∧
    (dfToGpx (fun v => v) c2df {}).2 = [c2pointA, c2pointB] := by
  refine ⟨dfPoints_eq_filterMap, ?_, by decide⟩
  intro df cfg i
  unfold mkPoint
  cases h1 : getV df i cfg.lats_colname <;>
    cases h2 : getV df i cfg.longs_colname <;> simp

/-- C4: the column pruner removes a column exactly when every one of its
cells is falsy (null, empty string, numeric zero or false); a retained
column keeps all its cells because the whole (name, cells) pair survives. -/
theorem c4_prune_iff (d : List (String × List (Option Value))) (k : String)
    (vals : List (Option Value)) (hmem : (k, vals) ∈ d) :
    (k, vals) ∉ pruneColumns d ↔ ∀ v ∈ vals, truthyCell v = false := by
  unfold pruneColumns
  rw [List.mem_filter]
  simp [hmem, List.any_eq_true]

/-- C4 witness: an all-null satellites column is pruned, and a satellites
column with a single truthy cell survives with all its cells. -/
theorem c4_prune_iff_witness :
    (("satellites", ([none, none] : List (Option Value))) ∈ c4nulls) ∧
    ((("satellites", ([none, none] : List (Option Value))) ∉ pruneColumns c4nulls ↔
        ∀ v ∈ ([none, none] : List (Option Value)), truthyCell v = false)) ∧
    pruneColumns c4nulls = [("latitude", [some (Value.num 1), some (Value.num 2)])] ∧
    pruneColumns c4mixed = [("satellites", [some (Value.num 4), none])] :=
  ⟨by decide, c4_prune_iff c4nulls "satellites" [none, none] (by decide),
    by decide, by decide⟩

/-- C5: the cell of an extension column is the text of the last extension
entry of the point whose tag matches the column, none when no entry matches;
two entries with the same tag and texts 1 then 2 flatten to 2. -/
theorem c5_last_write_wins :
    (∀ (exts : List (String × String)) (t : String),
      extColVal exts t = ((exts.filter (fun e => e.1 = t)).getLast?).map Prod.snd) ∧
    extColVal [("T", "1"), ("T", "2")] "T" = some "2" :=
  ⟨extColVal_eq, by decide⟩

/-- C6 counterexample: a document with zero points does not flatten to an
empty table with the mandatory standard columns; indexing the first point
for attribute introspection fails instead. -/
theorem c6_counterexample :
    gpxToDict { tracks := [] } "latitude" "longitude" "time" "altitude" "satellites" true =
      Except.error "list index out of range" := by rfl

/-- C6 amended: for every zero-point document and every configuration the
flattener raises the index error of tracks-segments-points indexing instead
of returning a table. -/
theorem c6_zero_points_error (g : GPX) (a b c d e : String) (ee : Bool)
    (h : allPoints g = []) :
    gpxToDict g a b c d e ee = Except.error "list index out of range" := by
  unfold gpxToDict
  rw [firstPoint_eq_none_of_no_points g h]

/-- C6 witness: a document with one track and one empty segment has zero
points, and flattening it yields the index error. -/
theorem c6_zero_points_error_witness :
    allPoints { tracks := [{ segments := [{ points := [] }] }] } = [] ∧
    gpxToDict { tracks := [{ segments := [{ points := [] }] }] }
        "latitude" "longitude" "time" "altitude" "satellites" true =
      Except.error "list index out of range" :=
  ⟨rfl, c6_zero_points_error _ "latitude" "longitude" "time" "altitude" "satellites" true rfl⟩

/-- C3: for a point built from a non-skipped row, the extension entries with
a given catalogue tag are exactly one entry (tag, stringified value) when the
field's source column is configured and the row's value is non-null, and no
entry at all when the column is unconfigured, absent, or the value null. -/
theorem c3_catalogue_mapping (df : DFrame) (cfg : GpxCfg) (i : ℕ) (p : TPoint)
    (hp : mkPoint df cfg i = some p) (tag : String) (col : Option String)
    (hmem : (tag, col) ∈ telemetryCatalogue cfg) :
    p.extensions.filter (fun e => e.1 = tag) =
      match getV df i col with
      | none => []
      | some v => [(tag, pyStr v)] := by
  have hext : p.extensions = mkExts df cfg i := by
    unfold mkPoint at hp
    cases h1 : getV df i cfg.lats_colname <;> rw [h1] at hp
    · exact absurd hp (by simp)
    · cases h2 : getV df i cfg.longs_colname <;> rw [h2] at hp
      · exact absurd hp (by simp)
      · rw [← Option.some.inj hp]
  rw [hext, mkExts_eq_flatMap]
  exact filter_flatMap_key
    (fun tc =>
      match getV df i tc.2 with
      | none => []
      | some v => [(tc.1, pyStr v)])
    (fun tc e he => by
      simp only at he
      cases h : getV df i tc.2 <;> rw [h] at he
      · simp at he
      · rw [List.mem_singleton] at he
        rw [he])
    (telemetryCatalogue cfg) (telemetryTags_nodup cfg) tag col hmem

/-- C3 witness: a row with engine temperature 87.5 and a configured source
column yields exactly the tagged entry with text 87.5. -/
theorem c3_catalogue_mapping_witness :
    mkPoint c3df c3cfg 0 = some c3point ∧
    c3point.extensions.filter (fun e => e.1 = "engine_temp_c") =
      [("engine_temp_c", "87.5")] :=
  ⟨by decide, by
    have h := c3_catalogue_mapping c3df c3cfg 0 c3point (by decide)
      "engine_temp_c" (some "engine_temp") (by decide)
    exact h.trans (by decide)⟩

/-- C8: for an open resampling call with at least two control points, the
degree handed to the evaluator is the requested degree clamped into the range
from 1 to one less than the control-point count. -/
theorem c8_degree_clamp (cv : List (List ℚ)) (n d : ℕ) (h2 : 2 ≤ cv.length) :
    (spline_interpolation cv n d false).toOption.map SplineCall.degree =
      some (max 1 (min (d : ℤ) ((cv.length : ℤ) - 1))) := by
  rw [spline_open_degree]
  congr 1
  have hlen : (2 : ℤ) ≤ (cv.length : ℤ) := by exact_mod_cast h2
  omega

/-- C8 witness: an open curve with three control points and requested degree
five is evaluated at degree two, not rejected. -/
theorem c8_degree_clamp_witness :
    2 ≤ ([[0, 0], [1, 1], [2, 2]] : List (List ℚ)).length ∧
    (spline_interpolation [[0, 0], [1, 1], [2, 2]] 10 5 false).toOption.map
      SplineCall.degree = some 2 :=
  ⟨by decide, by
    have h := c8_degree_clamp [[0, 0], [1, 1], [2, 2]] 10 5 (by decide)
    exact h.trans (by decide)⟩

/-- C9 counterexample: a call with a single control point (count below two,
clamped degree zero) is not rejected: the resampler reaches the external
evaluator, handing it degree zero. -/
theorem c9_counterexample :
    (spline_interpolation [[0, 0]] 5 3 false).toOption.isSome = true ∧
    (spline_interpolation [[0, 0]] 5 3 false).toOption.map SplineCall.degree =
      some 0 := by
  constructor
  · rfl
  · rfl

/-- C9 amended: the resampler performs no validation at all; an open call
with fewer than two control points proceeds to the evaluator, carrying the
out-of-range degree count minus one that the clamp produces. -/
theorem c9_no_rejection (cv : List (List ℚ)) (n d : ℕ) (h1 : cv.length ≤ 1) :
    (spline_interpolation cv n d false).toOption.isSome = true ∧
    (spline_interpolation cv n d false).toOption.map SplineCall.degree =
      some ((cv.length : ℤ) - 1) := by
  refine ⟨spline_open_isSome cv n d, ?_⟩
  rw [spline_open_degree]
  congr 1
  have hlen : (cv.length : ℤ) ≤ 1 := by exact_mod_cast h1
  omega

/-- C9 witness: the single-control-point call passes hypothesis and
conclusion of the no-rejection theorem at a concrete input. -/
theorem c9_no_rejection_witness :
    ([[0, 1]] : List (List ℚ)).length ≤ 1 ∧
    (spline_interpolation [[0, 1]] 4 2 false).toOption.isSome = true ∧
    (spline_interpolation [[0, 1]] 4 2 false).toOption.map SplineCall.degree =
      some (([[0, 1]] : List (List ℚ)).length - 1 : ℤ) := by
  have h := c9_no_rejection [[0, 1]] 4 2 (by decide)
  exact ⟨by decide, h.1, by
    have h2 := h.2
    exact h2.trans (by decide)⟩

/-- C10: whenever a time column name is configured and present, the
conversion overwrites exactly that column of the caller's dataframe with the
bulk-parsed values before any point is built (the points are built from the
updated dataframe), and every other column is left unmodified. -/
theorem c10_time_mutation (parse : Option Value → Option Value) (df : DFrame)
    (cfg : GpxCfg) (tc : String) (vals : List (Option Value))
    (htc : cfg.times_colname = some tc) (hne : ¬(tc = ""))
    (hvals : dlookup tc df = some vals) :
    dlookup tc ((dfToGpx parse df cfg).1) = some (vals.map parse) ∧
    (∀ c, c ≠ tc → dlookup c ((dfToGpx parse df cfg).1) = dlookup c df) ∧
    (dfToGpx parse df cfg).2 = dfPoints ((dfToGpx parse df cfg).1) cfg := by
  have hdf : (dfToGpx parse df cfg).1 = setKey df tc (vals.map parse) := by
    show parseTimes parse df cfg = _
    unfold parseTimes
    rw [htc]
    show (if tc = "" then df
      else
        match dlookup tc df with
        | none => df
        | some vals => setKey df tc (vals.map parse)) = _
    rw [if_neg hne, hvals]
  refine ⟨?_, ?_, rfl⟩
  · rw [hdf]; exact dlookup_setKey_self tc df (vals.map parse)
  · intro c hc
    rw [hdf]; exact dlookup_setKey_other tc c df (vals.map parse) hc

/-- C10 witness: the configured time column of a concrete table is replaced
by the parsed value while the latitude column is untouched. -/
theorem c10_time_mutation_witness :
    c10cfg.times_colname = some "t" ∧
    dlookup "t" c10df = some [some (Value.str "2025-06-15 18:24:20")] ∧
    dlookup "t"
        ((dfToGpx (fun _ => some (Value.time 77)) c10df c10cfg).1) =
      some [some (Value.time 77)] ∧
    dlookup "latitude"
        ((dfToGpx (fun _ => some (Value.time 77)) c10df c10cfg).1) =
      some [some (Value.num 1)] := by
  have h := c10_time_mutation (fun _ => some (Value.time 77)) c10df c10cfg "t"
    [some (Value.str "2025-06-15 18:24:20")] rfl (by decide) (by decide)
  exact ⟨rfl, by decide, h.1.trans (by decide),
    (h.2.1 "latitude" (by decide)).trans (by decide)⟩

/-- C7 counterexample: a document whose only point has elevation zero
flattens to a table with no altitude column (the all-falsy column is pruned),
so the round trip rebuilds the point with no elevation at all even though the
row is not dropped: latitude and longitude come back but elevation does not. -/
theorem c7_counterexample :
    (allPoints c7zdoc).map GPoint.elevation = [some 0] ∧
    gpxToDict c7zdoc "latitude" "longitude" "time" "altitude" "satellites" true =
      Except.ok c7ztbl ∧
    (mkPoint (parseTimes (fun v => v) c7ztbl roundTripCfg) roundTripCfg 0).map
      TPoint.latitude = some (Value.num 1) ∧
    (mkPoint (parseTimes (fun v => v) c7ztbl roundTripCfg) roundTripCfg 0).map
      TPoint.elevation = some none := by
  refine ⟨by decide, by rfl, by decide, by decide⟩

/-- C7 amended: round-tripping a document through the table (flattening with
the default configuration, rebuilding with the matching column names, no
extension tag colliding with a standard column name) reproduces latitude and
longitude exactly for every row that is not dropped; elevation is reproduced
exactly whenever the altitude column survived pruning (some point has a
truthy elevation), and comes back absent when every elevation was zero or
missing. -/
theorem c7_roundtrip (g : GPX) (p0 : GPoint) (parse : Option Value → Option Value)
    (i : ℕ) (tbl : List (String × List (Option Value)))
    (hfp : firstPoint g = some p0)
    (hothers : (p0.others.map Prod.fst).Nodup)
    (hne : ∀ t ∈ extTagsOf g,
      t ∉ (["time", "longitude", "latitude", "elevation", "altitude"] : List String))
    (hi : i < (allPoints g).length)
    (hok : gpxToDict g "latitude" "longitude" "time" "altitude" "satellites" true =
      Except.ok tbl)
    (hlat : (getV (parseTimes parse tbl roundTripCfg) i
      roundTripCfg.lats_colname).isSome = true)
    (hlon : (getV (parseTimes parse tbl roundTripCfg) i
      roundTripCfg.longs_colname).isSome = true) :
    ((mkPoint (parseTimes parse tbl roundTripCfg) roundTripCfg i).map TPoint.latitude =
      some (Value.num ((allPoints g).get ⟨i, hi⟩).latitude)) ∧
    ((mkPoint (parseTimes parse tbl roundTripCfg) roundTripCfg i).map TPoint.longitude =
      some (Value.num ((allPoints g).get ⟨i, hi⟩).longitude)) ∧
    ((mkPoint (parseTimes parse tbl roundTripCfg) roundTripCfg i).map TPoint.elevation =
      some (if ((allPoints g).map (fun q => q.elevation.map Value.num)).any truthyCell
            then ((allPoints g).get ⟨i, hi⟩).elevation.map Value.num
            else none)) := by
  -- the flattener's output is the pruned renamed table
  have htbl : tbl = pruneColumns (renamedColumns g p0 true) := by
    unfold gpxToDict at hok
    rw [hfp] at hok
    exact (Except.ok.inj hok).symm
  subst htbl
  -- lookups of the three standard columns on the renamed table
  have hlatext : "latitude" ∉ extTagsOf g := fun hmem => (hne _ hmem) (by decide)
  have hlonext : "longitude" ∉ extTagsOf g := fun hmem => (hne _ hmem) (by decide)
  have helevext : "elevation" ∉ extTagsOf g := fun hmem => (hne _ hmem) (by decide)
  have hlat1 : dlookup "latitude" (renamedColumns g p0 true) =
      some ((allPoints g).map (fun p => some (Value.num p.latitude))) :=
    flatten_lookup_renamed_std g p0 "latitude"
      (List.mem_append_left _ (by decide)) hlatext (by decide) (by decide)
  have hlon1 : dlookup "longitude" (renamedColumns g p0 true) =
      some ((allPoints g).map (fun p => some (Value.num p.longitude))) :=
    flatten_lookup_renamed_std g p0 "longitude"
      (List.mem_append_left _ (by decide)) hlonext (by decide) (by decide)
  have halt1 : dlookup "altitude" (renamedColumns g p0 true) =
      some ((allPoints g).map (fun q => q.elevation.map Value.num)) :=
    flatten_lookup_renamed_alt g p0 helevext
  -- lookups after pruning
  have hlat2 : dlookup "latitude" (pruneColumns (renamedColumns g p0 true)) =
      (if ((allPoints g).map (fun p => some (Value.num p.latitude))).any truthyCell
       then some ((allPoints g).map (fun p => some (Value.num p.latitude)))
       else none) := by
    rw [flatten_pruned_lookup g p0 hothers, hlat1]
    rfl
  have hlon2 : dlookup "longitude" (pruneColumns (renamedColumns g p0 true)) =
      (if ((allPoints g).map (fun p => some (Value.num p.longitude))).any truthyCell
       then some ((allPoints g).map (fun p => some (Value.num p.longitude)))
       else none) := by
    rw [flatten_pruned_lookup g p0 hothers, hlon1]
    rfl
  have halt2 : dlookup "altitude" (pruneColumns (renamedColumns g p0 true)) =
      (if ((allPoints g).map (fun q => q.elevation.map Value.num)).any truthyCell
       then some ((allPoints g).map (fun q => q.elevation.map Value.num))
       else none) := by
    rw [flatten_pruned_lookup g p0 hothers, halt1]
    rfl
  -- the time-parsing pre-pass leaves all other columns unchanged
  have hframe : ∀ k, ¬(k = "time") →
      dlookup k (parseTimes parse (pruneColumns (renamedColumns g p0 true)) roundTripCfg) =
        dlookup k (pruneColumns (renamedColumns g p0 true)) := by
    intro k hk
    show dlookup k (parseTimes parse _ roundTripCfg) = _
    unfold parseTimes
    show dlookup k
      (match (some "time" : Option String) with
       | none => pruneColumns (renamedColumns g p0 true)
       | some tc =>
         if tc = "" then pruneColumns (renamedColumns g p0 true)
         else
           match dlookup tc (pruneColumns (renamedColumns g p0 true)) with
           | none => pruneColumns (renamedColumns g p0 true)
           | some vals =>
             setKey (pruneColumns (renamedColumns g p0 true)) tc (vals.map parse)) = _
    cases hdl : dlookup "time" (pruneColumns (renamedColumns g p0 true)) with
    | none => simp [hdl]
    | some vals =>
      simp only [hdl]
      rw [if_neg (by decide : ¬(("time" : String) = ""))]
      exact dlookup_setKey_other "time" k _ _ hk
  -- per-cell value equations for getV
  have hlatEq : getV (parseTimes parse (pruneColumns (renamedColumns g p0 true))
      roundTripCfg) i roundTripCfg.lats_colname =
      (if ((allPoints g).map (fun p => some (Value.num p.latitude))).any truthyCell
       then some (Value.num ((allPoints g).get ⟨i, hi⟩).latitude)
       else none) := by
    show getV _ i (some "latitude") = _
    rw [getV_some _ i "latitude" (by decide), hframe "latitude" (by decide), hlat2]
    by_cases hsurv : ((allPoints g).map (fun p => some (Value.num p.latitude))).any
        truthyCell = true
    · rw [if_pos hsurv, if_pos hsurv]
      show (((allPoints g).map (fun p => some (Value.num p.latitude))).get? i).join = _
      rw [List.get?_map, List.get?_eq_get hi]
      rfl
    · rw [if_neg hsurv, if_neg hsurv]
  have hlonEq : getV (parseTimes parse (pruneColumns (renamedColumns g p0 true))
      roundTripCfg) i roundTripCfg.longs_colname =
      (if ((allPoints g).map (fun p => some (Value.num p.longitude))).any truthyCell
       then some (Value.num ((allPoints g).get ⟨i, hi⟩).longitude)
       else none) := by
    show getV _ i (some "longitude") = _
    rw [getV_some _ i "longitude" (by decide), hframe "longitude" (by decide), hlon2]
    by_cases hsurv : ((allPoints g).map (fun p => some (Value.num p.longitude))).any
        truthyCell = true
    · rw [if_pos hsurv, if_pos hsurv]
      show (((allPoints g).map (fun p => some (Value.num p.longitude))).get? i).join = _
      rw [List.get?_map, List.get?_eq_get hi]
      rfl
    · rw [if_neg hsurv, if_neg hsurv]
  have haltEq : getV (parseTimes parse (pruneColumns (renamedColumns g p0 true))
      roundTripCfg) i roundTripCfg.alts_colname =
      (if ((allPoints g).map (fun q => q.elevation.map Value.num)).any truthyCell
       then ((allPoints g).get ⟨i, hi⟩).elevation.map Value.num
       else none) := by
    show getV _ i (some "altitude") = _
    rw [getV_some _ i "altitude" (by decide), hframe "altitude" (by decide), halt2]
    by_cases hsurv : ((allPoints g).map (fun q => q.elevation.map Value.num)).any
        truthyCell = true
    · rw [if_pos hsurv, if_pos hsurv]
      show (((allPoints g).map (fun q => q.elevation.map Value.num)).get? i).join = _
      rw [List.get?_map, List.get?_eq_get hi]
      rfl
    · rw [if_neg hsurv, if_neg hsurv]
  -- the survival conditions for latitude and longitude follow from the
  -- non-dropped-row hypotheses
  have hsurvLat : ((allPoints g).map (fun p => some (Value.num p.latitude))).any
      truthyCell = true := by
    by_contra hc
    rw [hlatEq, if_neg hc] at hlat
    simp at hlat
  have hsurvLon : ((allPoints g).map (fun p => some (Value.num p.longitude))).any
      truthyCell = true := by
    by_contra hc
    rw [hlonEq, if_neg hc] at hlon
    simp at hlon
  have hgetlat : getV (parseTimes parse (pruneColumns (renamedColumns g p0 true))
      roundTripCfg) i roundTripCfg.lats_colname =
      some (Value.num ((allPoints g).get ⟨i, hi⟩).latitude) := by
    rw [hlatEq, if_pos hsurvLat]
  have hgetlon : getV (parseTimes parse (pruneColumns (renamedColumns g p0 true))
      roundTripCfg) i roundTripCfg.longs_colname =
      some (Value.num ((allPoints g).get ⟨i, hi⟩).longitude) := by
    rw [hlonEq, if_pos hsurvLon]
  -- assemble the produced point
  refine ⟨?_, ?_, ?_⟩ <;>
    simp only [mkPoint, hgetlat, hgetlon, haltEq, Option.map_some] <;> rfl

/-- C7 witness: a one-point document with nonzero elevation round-trips to a
point carrying back the exact latitude, longitude and elevation. -/
theorem c7_roundtrip_witness :
    gpxToDict c7doc "latitude" "longitude" "time" "altitude" "satellites" true =
      Except.ok c7tbl ∧
    ((mkPoint (parseTimes (fun v => v) c7tbl roundTripCfg) roundTripCfg 0).map
      TPoint.latitude = some (Value.num 1)) ∧
    ((mkPoint (parseTimes (fun v => v) c7tbl roundTripCfg) roundTripCfg 0).map
      TPoint.longitude = some (Value.num 2)) ∧
    ((mkPoint (parseTimes (fun v => v) c7tbl roundTripCfg) roundTripCfg 0).map
      TPoint.elevation = some (some (Value.num 5))) := by
  have hi : (0 : ℕ) < (allPoints c7doc).length := by decide
  have h := c7_roundtrip c7doc c7p0 (fun v => v) 0 c7tbl rfl (by decide)
    (by decide) hi (by rfl) (by decide) (by decide)
  exact ⟨by rfl, h.1.trans rfl, h.2.1.trans rfl, h.2.2.trans rfl⟩
